import Mathlib

/-!
Shallow embedding of the `topic-mediactl` media-controller driver
(`topic-mediactl.c`): device-tree graph parsing, asynchronous subdev
binding, link assembly and the per-entity / whole-graph activation
state machine.

Conventions of the embedding:
* Firmware-node handles (`fwnode_handle *`) are `Nat`; errno values are
  positive constants and remote calls return `Int` (`0` or positive is
  success, a negative value is an error, `-ENOIOCTLCMD` being the soft
  "not implemented" outcome).
* A `none` result models a NULL-pointer dereference (a crash) of the C
  code; `some` carries the C return value together with the updated
  state and, for activation, the trace of remote commands issued.
* The remote subdev operations (`s_power`, `s_frame_interval`,
  `s_stream`) are opaque: a `SubdevResp` record fixes the value each
  one returns for a given subdevice.
* `media_create_pad_link`, `v4l2_async_notifier_add_fwnode_subdev`,
  `v4l2_async_notifier_register`, `v4l2_device_register_subdev_nodes`
  and `media_device_register` are modelled as succeeding; the claims
  under study do not exercise their failure paths.
* `v4l2_async_notifier_cleanup` frees every async subdev of the
  notifier, so in the embedding it turns the registry list into `[]`.
-/

def EINVAL : Int := 22

def ENODEV : Int := 19

def ENOIOCTLCMD : Int := 515

/-- One remote command issued to a bound subdevice through
`v4l2_subdev_call`. -/
inductive RemoteCmd where
  | power (b : Bool)
  | frame_interval
  | stream (b : Bool)
deriving DecidableEq, Repr

/-- The (opaque) responses of one subdevice to the remote commands:
what each `v4l2_subdev_call` returns. -/
structure SubdevResp where
  s_power_on : Int
  s_power_off : Int
  s_frame_interval : Int
  s_stream_on : Int
  s_stream_off : Int
deriving DecidableEq, Repr

/-- The parts of `struct media_entity` the driver reads: the name and
the pad array (`true` = the pad has `MEDIA_PAD_FL_SINK`). -/
structure MediaEntity where
  name : String
  pads : List Bool
deriving DecidableEq, Repr

/-- The parts of `struct v4l2_subdev` the driver reads. -/
structure V4l2Subdev where
  name : String
  fwnode : Nat
  entity : MediaEntity
  resp : SubdevResp
deriving DecidableEq, Repr

/-- `struct xvip_graph_entity`: one node of the registry
(`asd.match.fwnode`, the bound `entity` / `subdev` pointers, both NULL
until the binder runs, and the `streaming` flag). -/
structure XvipGraphEntity where
  fwnode : Nat
  entity : Option MediaEntity
  subdev : Option V4l2Subdev
  streaming : Bool
deriving DecidableEq, Repr

/-- `struct xvip_composite_device`, restricted to the fields the
activation path touches: the registry (`notifier.asd_list`) and the
device-level `is_streaming` flag. -/
structure XvipCompositeDevice where
  entities : List XvipGraphEntity
  is_streaming : Bool
deriving DecidableEq, Repr

/-- `xvip_graph_entity_set_streaming`: record the new streaming status
and return the previous one. -/
def xvip_graph_entity_set_streaming (entity : XvipGraphEntity) (enable : Bool) :
    Bool × XvipGraphEntity :=
  (entity.streaming, { entity with streaming := enable })

/-- The tail of the activation branch of `xvip_entity_start_stop`: the
`s_stream(1)` call, with rollback `s_power(0)` and streaming-flag reset
on hard failure.  `cmds` is the trace issued so far. -/
def xvip_stream_on_tail (subdev : V4l2Subdev) (entity : XvipGraphEntity)
    (cmds : List RemoteCmd) : Option (Int × XvipGraphEntity × List RemoteCmd) :=
  let ret := subdev.resp.s_stream_on
  if ret < 0 ∧ ret ≠ -ENOIOCTLCMD then
    some (ret, (xvip_graph_entity_set_streaming entity false).2,
      cmds ++ [RemoteCmd.stream true, RemoteCmd.power false])
  else
    some (ret, entity, cmds ++ [RemoteCmd.stream true])

/-- `xvip_entity_start_stop`: the per-node activation/deactivation state
machine.  Returns `none` when the C code would dereference the NULL
`entity->entity` / bogus subdev of an unbound node, otherwise the C
return value, the updated node and the trace of remote commands. -/
def xvip_entity_start_stop (entity : XvipGraphEntity) (turn_on : Bool) :
    Option (Int × XvipGraphEntity × List RemoteCmd) :=
  match entity.subdev with
  | none => none
  | some subdev =>
    let r := xvip_graph_entity_set_streaming entity turn_on
    let is_streaming := r.1
    let entity := r.2
    if turn_on = true ∧ is_streaming = false then
      let ret := subdev.resp.s_power_on
      if ret < 0 ∧ ret ≠ -ENOIOCTLCMD then
        some (ret, (xvip_graph_entity_set_streaming entity false).2,
          [RemoteCmd.power true])
      else
        if subdev.name = "IMX274" then
          let ret := subdev.resp.s_frame_interval
          if ret < 0 then
            some (ret, (xvip_graph_entity_set_streaming entity false).2,
              [RemoteCmd.power true, RemoteCmd.frame_interval])
          else
            xvip_stream_on_tail subdev entity
              [RemoteCmd.power true, RemoteCmd.frame_interval]
        else
          xvip_stream_on_tail subdev entity [RemoteCmd.power true]
    else if turn_on = false ∧ is_streaming = true then
      let ret := subdev.resp.s_stream_off
      let entity :=
        if ret < 0 ∧ ret ≠ -ENOIOCTLCMD then
          (xvip_graph_entity_set_streaming entity true).2
        else entity
      let ret := subdev.resp.s_power_off
      some (ret, entity, [RemoteCmd.stream false, RemoteCmd.power false])
    else
      some (0, entity, [])

/-- The loop body of `xvip_start_stream`: walk the registry in order,
activating each node; a crash in any activation is a crash of the
whole walk.  Per-node return values are ignored, as in the C code. -/
def xvip_start_stream_loop :
    List XvipGraphEntity → Option (List XvipGraphEntity × List (List RemoteCmd))
  | [] => some ([], [])
  | e :: rest =>
    match xvip_entity_start_stop e true with
    | none => none
    | some (_ret, e', cmds) =>
      match xvip_start_stream_loop rest with
      | none => none
      | some (es, ts) => some (e' :: es, cmds :: ts)

/-- `xvip_start_stream`: whole-graph activation.  The C function is
`void`: it returns nothing; afterwards it unconditionally sets the
device-level `is_streaming` flag. -/
def xvip_start_stream (xdev : XvipCompositeDevice) :
    Option (XvipCompositeDevice × List (List RemoteCmd)) :=
  match xvip_start_stream_loop xdev.entities with
  | none => none
  | some (es, ts) => some ({ entities := es, is_streaming := true }, ts)

/-- `xvip_start_stream_show`: the sysfs read of the `stream_start`
attribute, `snprintf(buf, PAGE_SIZE, "%d\n", g_xdev->is_streaming)`. -/
def xvip_start_stream_show (xdev : XvipCompositeDevice) : String :=
  (if xdev.is_streaming then "1" else "0") ++ "\n"

/-- `xvip_start_stream_store`: the sysfs write of the `stream_start`
attribute: run `xvip_start_stream` and report the whole write as
consumed. -/
def xvip_start_stream_store (xdev : XvipCompositeDevice) (count : Nat) :
    Option (XvipCompositeDevice × Nat) :=
  match xvip_start_stream xdev with
  | none => none
  | some (xdev', _) => some (xdev', count)

/-- The device-tree topology seen by `xvip_graph_parse_one`: for each
firmware node, the list of its graph endpoints, each given by the
result of `fwnode_graph_get_remote_port_parent` (`none` models a NULL
result, i.e. an unresolvable remote parent).  `root` is the composite
device's own node, `of_fwnode_handle(xdev->dev->of_node)`. -/
structure XvipTopology where
  root : Nat
  endpointsOf : Nat → List (Option Nat)

/-- `xvip_graph_find_entity`: first registry entry whose
`asd.match.fwnode` equals the given firmware node. -/
def xvip_graph_find_entity (entities : List XvipGraphEntity) (fwnode : Nat) :
    Option XvipGraphEntity :=
  entities.find? (fun e => e.fwnode == fwnode)

/-- The endpoint loop of `xvip_graph_parse_one`, over the registry as a
list of firmware nodes (`v4l2_async_notifier_add_fwnode_subdev`
appends; `v4l2_async_notifier_cleanup` on the error path discards the
whole registry). -/
def xvip_graph_parse_one_loop (root : Nat) :
    List (Option Nat) → List Nat → Int × List Nat
  | [], notifier => (0, notifier)
  | none :: _, _ => (-EINVAL, [])
  | some remote :: rest, notifier =>
    if remote = root ∨ notifier.contains remote then
      xvip_graph_parse_one_loop root rest notifier
    else
      xvip_graph_parse_one_loop root rest (notifier ++ [remote])

/-- `xvip_graph_parse_one`: walk one node's endpoints, registering every
newly seen remote parent; an unresolvable remote parent cleans up the
notifier and returns `-EINVAL`. -/
def xvip_graph_parse_one (top : XvipTopology) (notifier : List Nat)
    (fwnode : Nat) : Int × List Nat :=
  xvip_graph_parse_one_loop top.root (top.endpointsOf fwnode) notifier

/-- The `list_for_each_entry` loop of `xvip_graph_parse`: the list being
iterated grows while it is walked, so the walk is by index; `fuel`
bounds the number of iterations (the C loop simply runs until the list
is exhausted).  On a failed `xvip_graph_parse_one` the loop cleans up
the notifier (again) and breaks with the error. -/
def xvip_graph_parse_loop (top : XvipTopology) :
    Nat → Nat → List Nat → Option (Int × List Nat)
  | 0, _, _ => none
  | fuel + 1, i, notifier =>
    match notifier.get? i with
    | none => some (0, notifier)
    | some fwnode =>
      if (xvip_graph_parse_one top notifier fwnode).1 < 0 then
        some ((xvip_graph_parse_one top notifier fwnode).1, [])
      else
        xvip_graph_parse_loop top fuel (i + 1)
          (xvip_graph_parse_one top notifier fwnode).2

/-- `xvip_graph_parse`: parse the composite node, then every registered
entity in turn.  Note the C code's `if (ret < 0) return 0;` after the
root parse: a failure parsing the root's own endpoints is reported as
success. -/
def xvip_graph_parse (top : XvipTopology) (fuel : Nat) :
    Option (Int × List Nat) :=
  if (xvip_graph_parse_one top [] top.root).1 < 0 then
    some (0, (xvip_graph_parse_one top [] top.root).2)
  else
    xvip_graph_parse_loop top fuel 0 (xvip_graph_parse_one top [] top.root).2

/-- `xvip_graph_init`: parse the graph; on a negative parse result run
`xvip_graph_cleanup` (discarding the registry) and return the error; an
empty registry is reported ("no subdev found in graph") but returns 0;
notifier registration is modelled as succeeding. -/
def xvip_graph_init (top : XvipTopology) (fuel : Nat) :
    Option (Int × List Nat) :=
  match xvip_graph_parse top fuel with
  | none => none
  | some r =>
    if r.1 < 0 then some (r.1, [])
    else some (0, r.2)

/-- `xvip_graph_notify_bound`: locate the registry entry matching the
arriving subdev's firmware node and store the entity/subdev pointers;
an already-bound match or no match is `-EINVAL` with the registry left
as it was. -/
def xvip_graph_notify_bound :
    List XvipGraphEntity → V4l2Subdev → Int × List XvipGraphEntity
  | [], _ => (-EINVAL, [])
  | e :: rest, subdev =>
    if e.fwnode ≠ subdev.fwnode then
      ((xvip_graph_notify_bound rest subdev).1,
       e :: (xvip_graph_notify_bound rest subdev).2)
    else if e.subdev.isSome then (-EINVAL, e :: rest)
    else (0, { e with entity := some subdev.entity, subdev := some subdev } :: rest)

/-- One created media link: `media_create_pad_link(local, local_pad,
remote, remote_pad, MEDIA_LNK_FL_ENABLED)`. -/
structure MediaLink where
  local_name : String
  local_pad : Nat
  remote_name : String
  remote_pad : Nat
deriving DecidableEq, Repr

/-- One endpoint as consumed by `xvip_graph_build_one`:
`v4l2_fwnode_parse_link`'s success and the parsed local port, remote
parent node and remote port. -/
structure LinkDesc where
  parse_ok : Bool
  local_port : Nat
  remote_node : Nat
  remote_port : Nat
deriving DecidableEq, Repr

/-- The topology seen by the link-assembly pass: for each firmware
node, the endpoint links `v4l2_fwnode_parse_link` yields. -/
structure XvipBuildTop where
  root : Nat
  linksOf : Nat → List LinkDesc

/-- The state mutated by link assembly: the registry, the global
`indication` counter used by the IMX274 renaming, and the media links
created so far. -/
structure XvipBuildState where
  entities : List XvipGraphEntity
  indication : Nat
  links : List MediaLink
deriving DecidableEq, Repr

/-- The endpoint loop of `xvip_graph_build_one`.  `ret` carries the C
loop's running return value (a parse failure leaves a negative `ret`
behind and continues).  `none` models the NULL dereference of
`remote->num_pads` when the remote entity is unbound. -/
def xvip_graph_build_one_loop (entities : List XvipGraphEntity) (root : Nat)
    (local_ent : MediaEntity) (links : List MediaLink) (ret : Int) :
    List LinkDesc → Option (Int × List MediaLink)
  | [] => some (ret, links)
  | ld :: rest =>
    if ld.parse_ok = false then
      xvip_graph_build_one_loop entities root local_ent links (-EINVAL) rest
    else if local_ent.pads.length ≤ ld.local_port then
      some (-EINVAL, links)
    else if local_ent.pads.getD ld.local_port false = true then
      xvip_graph_build_one_loop entities root local_ent links 0 rest
    else if ld.remote_node = root then
      xvip_graph_build_one_loop entities root local_ent links 0 rest
    else
      match xvip_graph_find_entity entities ld.remote_node with
      | none => some (-ENODEV, links)
      | some ent =>
        match ent.entity with
        | none => none
        | some remote =>
          if remote.pads.length ≤ ld.remote_port then
            some (-EINVAL, links)
          else
            xvip_graph_build_one_loop entities root local_ent
              (links ++ [⟨local_ent.name, ld.local_port, remote.name, ld.remote_port⟩])
              0 rest

/-- `xvip_graph_build_one` on the `i`-th registry entry: first the
IMX274 renaming driven by the global `indication` counter, then the
endpoint loop.  `none` models the NULL dereference of `local->name`
when the entry has no bound entity. -/
def xvip_graph_build_one (top : XvipBuildTop) (st : XvipBuildState) (i : Nat) :
    Option (Int × XvipBuildState) :=
  match st.entities.get? i with
  | none => some (0, st)
  | some ge =>
    match ge.entity with
    | none => none
    | some me =>
      let renamed :=
        if me.name = "IMX274" then
          if st.indication = 0 then { me with name := "IMX274_0" }
          else { me with name := "IMX274_1" }
        else me
      let ind := if me.name = "IMX274" then st.indication + 1 else st.indication
      let ents := st.entities.set i { ge with entity := some renamed }
      match xvip_graph_build_one_loop ents top.root renamed st.links 0
          (top.linksOf ge.fwnode) with
      | none => none
      | some r => some (r.1, ⟨ents, ind, r.2⟩)

/-- The `list_for_each_entry` loop of `xvip_graph_notify_complete`:
build links for every registry entry in order, aborting on the first
negative return.  `fuel` is instantiated with the registry length. -/
def xvip_graph_notify_complete_loop (top : XvipBuildTop) :
    Nat → Nat → XvipBuildState → Option (Int × XvipBuildState)
  | 0, _, st => some (0, st)
  | fuel + 1, i, st =>
    match xvip_graph_build_one top st i with
    | none => none
    | some (ret, st') =>
      if ret < 0 then some (ret, st')
      else xvip_graph_notify_complete_loop top fuel (i + 1) st'

/-- `xvip_graph_notify_complete`: build links for every entity, then
register the subdev nodes and the media device (both modelled as
succeeding, so the completed pass returns 0). -/
def xvip_graph_notify_complete (top : XvipBuildTop) (st : XvipBuildState) :
    Option (Int × XvipBuildState) :=
  match xvip_graph_notify_complete_loop top st.entities.length 0 st with
  | none => none
  | some (ret, st') =>
    if ret < 0 then some (ret, st') else some (0, st')

/-- The outcome of activating one node alone (total on bound nodes):
return value, node afterwards, and issued commands. -/
def xvip_activate_result (e : XvipGraphEntity) : Int × XvipGraphEntity × List RemoteCmd :=
  (xvip_entity_start_stop e true).getD (0, e, [])

/-- A subdevice on which every remote command succeeds. -/
def respOk : SubdevResp := ⟨0, 0, 0, 0, 0⟩

/-- A bound registry node whose media entity and subdev share a name
and have no pads. -/
def mkBoundEnt (fw : Nat) (nm : String) (resp : SubdevResp) (streaming : Bool) :
    XvipGraphEntity :=
  ⟨fw, some ⟨nm, []⟩, some ⟨nm, fw, ⟨nm, []⟩, resp⟩, streaming⟩

/-- Three bound idle nodes; the second node's `s_stream(1)` fails with
`-5` (`-EIO`), the others succeed everywhere. -/
def devC1 : XvipCompositeDevice :=
  ⟨[mkBoundEnt 1 "nodeA" respOk false,
    mkBoundEnt 2 "nodeB" ⟨0, 0, 0, -5, 0⟩ false,
    mkBoundEnt 3 "nodeC" respOk false], false⟩

/-- `devC1` after whole-graph activation: nodes 1 and 3 streaming, the
failed node 2 idle, device flag set. -/
def devC1After : XvipCompositeDevice :=
  ⟨[mkBoundEnt 1 "nodeA" respOk true,
    mkBoundEnt 2 "nodeB" ⟨0, 0, 0, -5, 0⟩ false,
    mkBoundEnt 3 "nodeC" respOk true], true⟩

/-- The per-node command traces of activating `devC1`. -/
def devC1Traces : List (List RemoteCmd) :=
  [[RemoteCmd.power true, RemoteCmd.stream true],
   [RemoteCmd.power true, RemoteCmd.stream true, RemoteCmd.power false],
   [RemoteCmd.power true, RemoteCmd.stream true]]

/-- A subdev whose `s_stream(0)` fails hard with `-5` and whose
`s_power(0)` succeeds. -/
def sdC2 : V4l2Subdev := ⟨"nodeB", 4, ⟨"nodeB", []⟩, ⟨0, 0, 0, 0, -5⟩⟩

/-- A streaming node bound to `sdC2`. -/
def entC2 : XvipGraphEntity := ⟨4, some sdC2.entity, some sdC2, true⟩

/-- A bound node that is already streaming (for idempotent activate). -/
def entC4s : XvipGraphEntity := mkBoundEnt 11 "camA" respOk true

/-- A bound node that is idle (for idempotent deactivate). -/
def entC4i : XvipGraphEntity := mkBoundEnt 12 "camB" respOk false

/-- A non-IMX274 subdev whose `s_stream(1)` fails hard with `-5`. -/
def sdC5 : V4l2Subdev := ⟨"camC", 13, ⟨"camC", []⟩, ⟨0, 0, 0, -5, 0⟩⟩

/-- An idle node bound to `sdC5`. -/
def entC5 : XvipGraphEntity := ⟨13, some sdC5.entity, some sdC5, false⟩

/-- An IMX274 subdev whose `s_frame_interval` fails with `-5`. -/
def sdC9 : V4l2Subdev := ⟨"IMX274", 14, ⟨"IMX274", []⟩, ⟨0, 0, -5, 0, 0⟩⟩

/-- An idle node bound to `sdC9`. -/
def entC9 : XvipGraphEntity := ⟨14, some sdC9.entity, some sdC9, false⟩

/-- A node whose `s_power(1)` fails hard, so its activation fails. -/
def entC10 : XvipGraphEntity := mkBoundEnt 7 "camD" ⟨-5, 0, 0, 0, 0⟩ false

/-- A device whose single node fails to activate. -/
def devC10 : XvipCompositeDevice := ⟨[entC10], false⟩

/-- The result of writing `stream_start` on `devC10`: the node stays
idle, yet the device-level flag is set. -/
def devC10res : XvipCompositeDevice × Nat := (⟨[entC10], true⟩, 1)

/-- A registry with one bound node (firmware node 5) and one unbound
node (firmware node 6). -/
def entsC6 : List XvipGraphEntity :=
  [mkBoundEnt 5 "camE" respOk false, ⟨6, none, none, false⟩]

/-- A second subdev arriving for the already-bound firmware node 5. -/
def sdC6 : V4l2Subdev := ⟨"camE2", 5, ⟨"camE2", []⟩, respOk⟩

/-- A topology whose root (node 0) has one resolvable endpoint (to
node 5) followed by one endpoint with no resolvable remote parent. -/
def topC3 : XvipTopology :=
  ⟨0, fun n => if n = 0 then [some 5, none] else []⟩

/-- A topology where the root resolves fine but the discovered node 1
has an endpoint with no resolvable remote parent. -/
def topC3w : XvipTopology :=
  ⟨0, fun n => if n = 0 then [some 1] else if n = 1 then [none] else []⟩

/-- An unbound registry node. -/
def entU : XvipGraphEntity := ⟨9, none, none, false⟩

/-- A registry for link assembly: node 1 bound, node 9 unbound. -/
def stC7 : XvipBuildState := ⟨[mkBoundEnt 1 "nodeA" respOk false, entU], 0, []⟩

/-- A build topology where no node declares any endpoint link. -/
def topC7 : XvipBuildTop := ⟨0, fun _ => []⟩

/-- A bound registry node whose media entity is named `IMX274`. -/
def entIMX (fw : Nat) : XvipGraphEntity :=
  ⟨fw, some ⟨"IMX274", []⟩, some ⟨"IMX274", fw, ⟨"IMX274", []⟩, respOk⟩, false⟩

/-- Three bound nodes, all named `IMX274`, before link assembly. -/
def stC8 : XvipBuildState := ⟨[entIMX 1, entIMX 2, entIMX 3], 0, []⟩

/-- A build topology with no endpoint links (naming is still applied). -/
def topC8 : XvipBuildTop := ⟨0, fun _ => []⟩

theorem xvip_stream_on_tail_isSome (sd : V4l2Subdev) (e : XvipGraphEntity)
    (cmds : List RemoteCmd) : (xvip_stream_on_tail sd e cmds).isSome = true := by
  unfold xvip_stream_on_tail
  by_cases h : sd.resp.s_stream_on < 0 ∧ sd.resp.s_stream_on ≠ -ENOIOCTLCMD <;>
    simp [h]

theorem xvip_entity_start_stop_isSome (e : XvipGraphEntity) (b : Bool)
    (h : e.subdev.isSome = true) : (xvip_entity_start_stop e b).isSome = true := by
  unfold xvip_entity_start_stop
  cases hs : e.subdev with
  | none => rw [hs] at h; simp at h
  | some sd =>
    simp only
    split
    · split
      · simp
      · split
        · split
          · simp
          · exact xvip_stream_on_tail_isSome ..
        · exact xvip_stream_on_tail_isSome ..
    · split
      · simp
      · simp

theorem xvip_start_stream_loop_map (es : List XvipGraphEntity)
    (hb : ∀ e ∈ es, e.subdev.isSome = true) :
    xvip_start_stream_loop es =
      some (es.map fun e => (xvip_activate_result e).2.1,
            es.map fun e => (xvip_activate_result e).2.2) := by
  induction es with
  | nil => rfl
  | cons e rest ih =>
    have h1 : (xvip_entity_start_stop e true).isSome = true :=
      xvip_entity_start_stop_isSome e true (hb e (List.mem_cons_self e rest))
    obtain ⟨r, hr⟩ := Option.isSome_iff_exists.mp h1
    obtain ⟨ret, e', cmds⟩ := r
    have hres : xvip_activate_result e = (ret, e', cmds) := by
      simp [xvip_activate_result, hr]
    simp [xvip_start_stream_loop, hr,
      ih (fun x hx => hb x (List.mem_cons_of_mem e hx)), hres]

/-- Claim C1, counterexample: activating `devC1` (three bound nodes
where node 2's stream-on fails) does NOT abort at node 2: node 3 is
still attempted (its trace is non-empty, it ends streaming), and the
whole-graph activation yields no error at all (the C function is
`void`), contradicting the claimed abort-on-first-failure. -/
theorem xvip_C1_counterexample :
    xvip_start_stream devC1 = some (devC1After, devC1Traces) ∧
    devC1Traces.getD 2 [] ≠ [] := by decide

/-- Claim C1, amended: whole-graph activation iterates all bound nodes
in registry order calling per-node activate on each, but it ignores
every per-node result: the iteration never aborts, every node is
attempted (each node's outcome is exactly that of activating it
alone), and no error is returned — the device flag is simply set. -/
theorem xvip_C1_amended (xdev : XvipCompositeDevice)
    (hb : ∀ e ∈ xdev.entities, e.subdev.isSome = true) :
    xvip_start_stream xdev =
      some (⟨xdev.entities.map fun e => (xvip_activate_result e).2.1, true⟩,
            xdev.entities.map fun e => (xvip_activate_result e).2.2) := by
  unfold xvip_start_stream
  rw [xvip_start_stream_loop_map xdev.entities hb]

/-- Witness for `xvip_C1_amended` at `devC1`. -/
theorem xvip_C1_amended_witness :
    xvip_start_stream devC1 =
      some (⟨devC1.entities.map fun e => (xvip_activate_result e).2.1, true⟩,
            devC1.entities.map fun e => (xvip_activate_result e).2.2) :=
  xvip_C1_amended devC1 (by decide)

/-- Claim C2, counterexample: deactivating the streaming node `entC2`,
whose stream-off fails hard with `-5`, DOES issue the power-off
command and returns the power-off result `0`, not the stream-off
error `-5` (the streaming flag is restored to `true`, though). -/
theorem xvip_C2_counterexample :
    xvip_entity_start_stop entC2 false =
      some (0, entC2, [RemoteCmd.stream false, RemoteCmd.power false]) ∧
    (0 : Int) ≠ -5 := by decide

/-- Claim C2, amended: in per-node deactivate on a streaming node, if
the stream-off command fails with a hard error the node's streaming
flag is restored to `true`, but the power-off command is still issued
and the call returns the power-off command's result — the stream-off
error is discarded. -/
theorem xvip_C2_amended (e : XvipGraphEntity) (sd : V4l2Subdev)
    (hb : e.subdev = some sd) (hs : e.streaming = true)
    (hf : sd.resp.s_stream_off < 0 ∧ sd.resp.s_stream_off ≠ -ENOIOCTLCMD) :
    xvip_entity_start_stop e false =
      some (sd.resp.s_power_off, e, [RemoteCmd.stream false, RemoteCmd.power false]) := by
  obtain ⟨fw, en, sdv, st⟩ := e
  simp only at hb hs
  subst hb hs
  simp [xvip_entity_start_stop, xvip_graph_entity_set_streaming, hf]

/-- Witness for `xvip_C2_amended` at `entC2`. -/
theorem xvip_C2_witness :
    xvip_entity_start_stop entC2 false =
      some (sdC2.resp.s_power_off, entC2, [RemoteCmd.stream false, RemoteCmd.power false]) :=
  xvip_C2_amended entC2 sdC2 (by decide) (by decide) (by decide)

/-- Claim C4 (confirmed): activating an already-streaming node returns
success (0), issues zero remote commands and leaves the node
unchanged; deactivating an idle node likewise. -/
theorem xvip_C4_idempotent (e : XvipGraphEntity) (hb : e.subdev.isSome = true) :
    (e.streaming = true → xvip_entity_start_stop e true = some (0, e, [])) ∧
    (e.streaming = false → xvip_entity_start_stop e false = some (0, e, [])) := by
  obtain ⟨fw, en, sdv, st⟩ := e
  cases sdv with
  | none => simp at hb
  | some sd =>
    constructor <;> intro hs <;> simp only at hs <;> subst hs <;>
      simp [xvip_entity_start_stop, xvip_graph_entity_set_streaming]

/-- Witness for `xvip_C4_idempotent` at a streaming and an idle node. -/
theorem xvip_C4_witness :
    xvip_entity_start_stop entC4s true = some (0, entC4s, []) ∧
    xvip_entity_start_stop entC4i false = some (0, entC4i, []) :=
  ⟨(xvip_C4_idempotent entC4s (by decide)).1 (by decide),
   (xvip_C4_idempotent entC4i (by decide)).2 (by decide)⟩

/-- Claim C5 (confirmed): on an idle node not requiring the
frame-interval override, if power-on does not fail hard and stream-on
fails hard, the node ends idle (unchanged), the trace is power-on,
stream-on, then exactly one power-off, and the stream-on error is
returned. -/
theorem xvip_C5_rollback (e : XvipGraphEntity) (sd : V4l2Subdev)
    (hb : e.subdev = some sd) (hs : e.streaming = false)
    (hname : sd.name ≠ "IMX274")
    (hp : ¬(sd.resp.s_power_on < 0 ∧ sd.resp.s_power_on ≠ -ENOIOCTLCMD))
    (hst : sd.resp.s_stream_on < 0 ∧ sd.resp.s_stream_on ≠ -ENOIOCTLCMD) :
    xvip_entity_start_stop e true =
      some (sd.resp.s_stream_on, e,
        [RemoteCmd.power true, RemoteCmd.stream true, RemoteCmd.power false]) ∧
    ([RemoteCmd.power true, RemoteCmd.stream true, RemoteCmd.power false].count
      (RemoteCmd.power false)) = 1 := by
  obtain ⟨fw, en, sdv, st⟩ := e
  simp only at hb hs
  subst hb hs
  constructor
  · simp [xvip_entity_start_stop, xvip_graph_entity_set_streaming,
      xvip_stream_on_tail, hname, hp, hst]
  · decide

/-- Witness for `xvip_C5_rollback` at `entC5`. -/
theorem xvip_C5_witness :
    (xvip_entity_start_stop entC5 true =
      some (sdC5.resp.s_stream_on, entC5,
        [RemoteCmd.power true, RemoteCmd.stream true, RemoteCmd.power false]) ∧
    ([RemoteCmd.power true, RemoteCmd.stream true, RemoteCmd.power false].count
      (RemoteCmd.power false)) = 1) :=
  xvip_C5_rollback entC5 sdC5 (by decide) (by decide) (by decide) (by decide)
    (by decide)

/-- Claim C9 (confirmed): on an idle node recognized as needing the
frame-interval override (subdev name `IMX274`), if power-on does not
fail hard and the frame-interval command fails, the node ends idle
(unchanged), the frame-interval error is returned, and the trace is
power-on then frame-interval only — no power-off is issued. -/
theorem xvip_C9_frame_interval (e : XvipGraphEntity) (sd : V4l2Subdev)
    (hb : e.subdev = some sd) (hs : e.streaming = false)
    (hname : sd.name = "IMX274")
    (hp : ¬(sd.resp.s_power_on < 0 ∧ sd.resp.s_power_on ≠ -ENOIOCTLCMD))
    (hf : sd.resp.s_frame_interval < 0) :
    xvip_entity_start_stop e true =
      some (sd.resp.s_frame_interval, e,
        [RemoteCmd.power true, RemoteCmd.frame_interval]) := by
  obtain ⟨fw, en, sdv, st⟩ := e
  simp only at hb hs
  subst hb hs
  simp [xvip_entity_start_stop, xvip_graph_entity_set_streaming, hname, hp, hf]

/-- Witness for `xvip_C9_frame_interval` at `entC9`. -/
theorem xvip_C9_witness :
    xvip_entity_start_stop entC9 true =
      some (sdC9.resp.s_frame_interval, entC9,
        [RemoteCmd.power true, RemoteCmd.frame_interval]) :=
  xvip_C9_frame_interval entC9 sdC9 (by decide) (by decide) (by decide)
    (by decide) (by decide)

/-- Claim C10 (confirmed): every completed write to the `stream_start`
attribute leaves the device-level `is_streaming` flag `true` — whatever
the per-node activations did — so the subsequent attribute read
reports "1". -/
theorem xvip_C10_flag (xdev : XvipCompositeDevice) (count : Nat)
    (r : XvipCompositeDevice × Nat)
    (h : xvip_start_stream_store xdev count = some r) :
    r.1.is_streaming = true ∧ xvip_start_stream_show r.1 = "1\n" := by
  unfold xvip_start_stream_store xvip_start_stream at h
  cases hl : xvip_start_stream_loop xdev.entities with
  | none => rw [hl] at h; simp at h
  | some p =>
    rw [hl] at h
    obtain ⟨es, ts⟩ := p
    simp only [Option.some.injEq] at h
    subst h
    simp [xvip_start_stream_show]

/-- Witness for `xvip_C10_flag` at `devC10`, whose single node's
activation fails (hard power-on error) yet the flag reads "1". -/
theorem xvip_C10_witness :
    xvip_start_stream_store devC10 1 = some devC10res ∧
    (devC10res.1.is_streaming = true ∧ xvip_start_stream_show devC10res.1 = "1\n") :=
  ⟨by decide, xvip_C10_flag devC10 1 devC10res (by decide)⟩

theorem xvip_graph_parse_one_loop_err (root : Nat) (eps : List (Option Nat))
    (notifier : List Nat)
    (h : (xvip_graph_parse_one_loop root eps notifier).1 < 0) :
    (xvip_graph_parse_one_loop root eps notifier).2 = [] := by
  induction eps generalizing notifier with
  | nil => simp [xvip_graph_parse_one_loop] at h
  | cons ep rest ih =>
    cases ep with
    | none => rfl
    | some remote =>
      rw [xvip_graph_parse_one_loop] at h ⊢
      by_cases hc : remote = root ∨ notifier.contains remote = true
      · rw [if_pos hc] at h ⊢
        exact ih notifier h
      · rw [if_neg hc] at h ⊢
        exact ih (notifier ++ [remote]) h

theorem xvip_graph_parse_loop_err (top : XvipTopology) (fuel i : Nat)
    (notifier : List Nat) (res : Int × List Nat)
    (h : xvip_graph_parse_loop top fuel i notifier = some res)
    (hneg : res.1 < 0) : res.2 = [] := by
  induction fuel generalizing i notifier with
  | zero => simp [xvip_graph_parse_loop] at h
  | succ fuel ih =>
    rw [xvip_graph_parse_loop] at h
    cases hg : notifier.get? i with
    | none =>
      rw [hg] at h
      simp only [Option.some.injEq] at h
      subst h
      simp at hneg
    | some fwnode =>
      rw [hg] at h
      dsimp only at h
      by_cases hc : (xvip_graph_parse_one top notifier fwnode).1 < 0
      · rw [if_pos hc] at h
        simp only [Option.some.injEq] at h
        subst h
        rfl
      · rw [if_neg hc] at h
        exact ih _ _ h

/-- Claim C3, counterexample: in `topC3` the root's second endpoint has
no resolvable remote parent, so `xvip_graph_parse_one` on the root
fails with `-EINVAL` — yet `xvip_graph_parse` returns 0 (success) and
`xvip_graph_init` reports 0 upward: the failure is cleaned up but NOT
reported to the initializer as an error. -/
theorem xvip_C3_counterexample :
    (xvip_graph_parse_one topC3 [] topC3.root).1 = -EINVAL ∧
    xvip_graph_parse topC3 4 = some (0, []) ∧
    xvip_graph_init topC3 4 = some (0, []) := by decide

/-- Claim C3, amended: any endpoint-resolution failure discards the
partially-built registry and async-matching state (every error result
of `xvip_graph_parse` carries an empty registry), and a failure while
parsing a non-root entity is returned as that error; but a failure
resolving the root device's own endpoints is swallowed — the parse
returns success (0) with the registry already discarded. -/
theorem xvip_C3_amended (top : XvipTopology) (fuel : Nat)
    (res : Int × List Nat) (h : xvip_graph_parse top fuel = some res) :
    (res.1 < 0 → res.2 = []) ∧
    ((xvip_graph_parse_one top [] top.root).1 < 0 → res = (0, [])) := by
  unfold xvip_graph_parse at h
  split at h
  · simp only [Option.some.injEq] at h
    subst h
    constructor
    · intro hneg; simp at hneg
    · intro hr
      have hnil := xvip_graph_parse_one_loop_err top.root
        (top.endpointsOf top.root) [] hr
      simp only [xvip_graph_parse_one] at hnil ⊢
      rw [hnil]
  · rename_i hc
    constructor
    · exact xvip_graph_parse_loop_err top fuel 0 _ res h
    · intro hr
      exact absurd hr hc

/-- Witness for `xvip_C3_amended` at `topC3w`, where the failure occurs
while parsing the non-root node 1: the parse returns `-EINVAL` with the
registry discarded. -/
theorem xvip_C3_witness :
    ((((-22 : Int), ([] : List Nat)).1 < 0 →
        (((-22 : Int), ([] : List Nat))).2 = []) ∧
      ((xvip_graph_parse_one topC3w [] topC3w.root).1 < 0 →
        ((-22 : Int), ([] : List Nat)) = (0, []))) :=
  xvip_C3_amended topC3w 4 ((-22 : Int), ([] : List Nat)) (by decide)

/-- Claim C6 (confirmed): a `notify_bound` call whose firmware-node
identity only matches registry entries that already carry a bound
subdev — in particular, exactly one already-bound match, or no match at
all — fails with `-EINVAL` and leaves the whole registry (including the
existing binding) unchanged. -/
theorem xvip_C6_binding (entities : List XvipGraphEntity) (sd : V4l2Subdev)
    (h : ∀ e ∈ entities, e.fwnode = sd.fwnode → e.subdev.isSome = true) :
    xvip_graph_notify_bound entities sd = (-EINVAL, entities) := by
  induction entities with
  | nil => rfl
  | cons e rest ih =>
    rw [xvip_graph_notify_bound]
    split
    · rw [ih fun x hx hfw => h x (List.mem_cons_of_mem e hx) hfw]
    · split
      · rfl
      · rename_i hfw hbound
        have := h e (List.mem_cons_self e rest) (by omega)
        simp_all

/-- Witness for `xvip_C6_binding`: a second subdev arrives for the
already-bound firmware node 5 of `entsC6`. -/
theorem xvip_C6_witness :
    xvip_graph_notify_bound entsC6 sdC6 = (-EINVAL, entsC6) :=
  xvip_C6_binding entsC6 sdC6 (by decide)

/-- Claim C7, counterexample: running the link-assembly completion pass
over `stC7`, whose second registry node is unbound, does not fail fast
with an error — it dereferences the unbound node's NULL `entity`
pointer (the `none` result models the crash at
`strcmp(local->name, "IMX274")`). -/
theorem xvip_C7_counterexample :
    xvip_graph_notify_complete topC7 stC7 = none := by decide

/-- Claim C7, amended: the link assembler performs no completeness
check: per-node link building on a registry entry with no bound entity
dereferences the absent entity (a NULL-pointer dereference, modeled as
the crash result `none`) the moment it reads the entity's name,
instead of failing fast with an error return; links already created
for earlier nodes of the pass are simply left behind. -/
theorem xvip_C7_amended (top : XvipBuildTop) (st : XvipBuildState) (i : Nat)
    (ge : XvipGraphEntity) (hi : st.entities.get? i = some ge)
    (hu : ge.entity = none) :
    xvip_graph_build_one top st i = none := by
  unfold xvip_graph_build_one
  rw [hi]
  dsimp only
  rw [hu]

/-- Witness for `xvip_C7_amended` at the unbound node 1 of `stC7`. -/
theorem xvip_C7_witness : xvip_graph_build_one topC7 stC7 1 = none :=
  xvip_C7_amended topC7 stC7 1 entU (by decide) (by decide)

/-- Claim C8, counterexample: after the assembly pass over `stC8`,
whose three nodes all declare the name `IMX274`, the nodes carry the
names `IMX274_0`, `IMX274_1`, `IMX274_1` — the second and third
occurrence share a name, so not every duplicate-named node gets a
unique disambiguated name. -/
theorem xvip_C8_counterexample :
    (xvip_graph_notify_complete topC8 stC8).map
        (fun r => r.2.entities.map fun e => (e.entity.map MediaEntity.name).getD "") =
      some ["IMX274_0", "IMX274_1", "IMX274_1"] ∧
    ¬ (["IMX274_0", "IMX274_1", "IMX274_1"] : List String).Nodup := by decide

/-- Claim C8, amended: only nodes whose declared name is exactly
`IMX274` are renamed, driven by a global counter: the occurrence
processed while the counter is 0 becomes `IMX274_0`, every later one
becomes `IMX274_1`.  So for exactly two same-named `IMX274` nodes the
assembler assigns distinct suffixes in discovery order, while a third
or later occurrence repeats `IMX274_1` and other duplicate names are
never disambiguated. -/
theorem xvip_C8_amended (f1 f2 r : Nat) (p1 p2 : List Bool)
    (sd1 sd2 : V4l2Subdev) :
    (xvip_graph_notify_complete ⟨r, fun _ => []⟩
        ⟨[⟨f1, some ⟨"IMX274", p1⟩, some sd1, false⟩,
          ⟨f2, some ⟨"IMX274", p2⟩, some sd2, false⟩], 0, []⟩).map
        (fun res => res.2.entities.map fun e => (e.entity.map MediaEntity.name).getD "") =
      some ["IMX274_0", "IMX274_1"] := rfl
